import Mathlib

/-!
Verification of the Agency Leads Dashboard backend (src/main.py, src/schemas.py).

Shallow embedding conventions:
  * Mongo ObjectId values are modelled as natural numbers; the rendering
    str(objectId) is modelled by oidRepr (a nonempty decimal-digit string) and
    the bson ObjectId constructor applied to a string is modelled by oidParse,
    which succeeds exactly on nonempty digit strings.  The essential properties
    carried over from the real pair (str, ObjectId) are: rendering is injective,
    parse (render id) = id, parse rejects some strings, and rendered ids never
    contain the substring "Bearer ".
  * Python str.replace(old, new) is modelled by pyReplace (left-to-right,
    non-overlapping; the code only calls it with the fixed nonempty pattern
    "Bearer ", so the empty-pattern behaviour is irrelevant).
  * A raised HTTPException is an ApiErr.http value; an uncaught Python
    exception propagating out of a handler is an ApiErr.exn value.
  * The document store (database.py, not part of src/) and the Admin schema
    class are modelled from the spec where noted.
-/

deriving instance DecidableEq for Except

/-- Little-endian base-10 digit list of n (with explicit structural fuel). -/
def toDigitsRev (fuel n : Nat) : List Nat :=
  match fuel with
  | 0 => []
  | f + 1 => if n = 0 then [] else n % 10 :: toDigitsRev f (n / 10)

/-- Value of a little-endian digit list. -/
def ofDigitsLE : List Nat → Nat
  | [] => 0
  | d :: l => d + 10 * ofDigitsLE l

/-- The character for a decimal digit. -/
def digitChar (d : Nat) : Char := Char.ofNat (48 + d)

/-- Model of str(objectId): decimal rendering of the identifier. -/
def oidRepr (n : Nat) : String :=
  if n = 0 then "0" else ⟨((toDigitsRev n n).map digitChar).reverse⟩

/-- Recognizer for the characters an identifier rendering consists of. -/
def isOidDigit (c : Char) : Bool := decide (48 ≤ c.toNat ∧ c.toNat ≤ 57)

/-- Numeric value of a big-endian digit-character list. -/
def decodeDigits (cs : List Char) : Nat :=
  cs.foldl (fun acc c => 10 * acc + (c.toNat - 48)) 0

/-- Model of the bson ObjectId constructor applied to a string: succeeds
exactly on well-formed identifier renderings (nonempty digit strings). -/
def oidParse (s : String) : Option Nat :=
  if s.data.isEmpty then none
  else if s.data.all isOidDigit then some (decodeDigits s.data) else none

/-- Left-to-right non-overlapping replacement on character lists, with
structural fuel (fuel at least the length of the subject is always enough).
Models Python str.replace for a nonempty pattern. -/
def pyReplaceFuel (pat rep : List Char) : Nat → List Char → List Char
  | 0, s => s
  | _ + 1, [] => []
  | f + 1, c :: rest =>
    if !pat.isEmpty && pat.isPrefixOf (c :: rest) then
      rep ++ pyReplaceFuel pat rep f ((c :: rest).drop pat.length)
    else
      c :: pyReplaceFuel pat rep f rest

/-- Model of Python s.replace(pat, rep) (for the nonempty patterns the code uses). -/
def pyReplace (s pat rep : String) : String :=
  ⟨pyReplaceFuel pat.data rep.data s.data.length s.data⟩

/-- schemas.Customer: name, email (login identity), password_hash, is_active. -/
structure Customer where
  name : String
  email : String
  password_hash : String
  is_active : Bool := true
deriving DecidableEq

/-- Modelled from the spec: the Admin schema class (imported by main.py from
schemas but not present under src/): username, password_hash, role, is_active. -/
structure Admin where
  username : String
  password_hash : String
  role : String
  is_active : Bool := true
deriving DecidableEq

/-- schemas.Lead: customer_id (owner id as string), name, optional
email (an Optional EmailStr — the format constraint is enforced when main.py
constructs the value, see mkLead), optional phone/source, status defaulting to
"new", optional notes. -/
structure Lead where
  customer_id : String
  name : String
  email : Option String := none
  phone : Option String := none
  source : Option String := none
  status : String := "new"
  notes : Option String := none
deriving DecidableEq

/-- schemas.Feedback: lead_id, customer_id, optional rating (1..5),
disposition defaulting to "follow_up", optional comment, optional timestamp
(timestamps are modelled as naturals). -/
structure Feedback where
  lead_id : String
  customer_id : String
  rating : Option Int := none
  disposition : String := "follow_up"
  comment : Option String := none
  submitted_at : Option Nat := none
deriving DecidableEq

/-- A persisted document: the store-generated identifier plus the record. -/
structure StoredCustomer where
  _id : Nat
  doc : Customer
deriving DecidableEq

structure StoredAdmin where
  _id : Nat
  doc : Admin
deriving DecidableEq

structure StoredLead where
  _id : Nat
  doc : Lead
deriving DecidableEq

structure StoredFeedback where
  _id : Nat
  doc : Feedback
deriving DecidableEq

/-- Modelled from the spec: the document store state (database.py is not under
src/).  One list per collection, in insertion order, plus the state of the
store's unique-identifier generator. -/
structure DB where
  customer : List StoredCustomer := []
  admin : List StoredAdmin := []
  lead : List StoredLead := []
  feedback : List StoredFeedback := []
  nextId : Nat := 0
deriving DecidableEq

/-- The Literal values admitted for Feedback.disposition by schemas.py. -/
def validDisposition (s : String) : Bool :=
  s == "qualified" || s == "unqualified" || s == "follow_up" ||
    s == "wrong_number" || s == "no_response"

/-- The rating bound (ge=1, le=5) of schemas.Feedback. -/
def validRating : Option Int → Bool
  | none => true
  | some r => decide (1 ≤ r ∧ r ≤ 5)

/-- Pydantic validation performed when main.py constructs a schemas.Feedback
value; a validation failure is a raised (and in main.py uncaught) exception. -/
def mkFeedback (lead_id customer_id : String) (rating : Option Int)
    (disposition : String) (comment : Option String) (submitted_at : Option Nat) :
    Except String Feedback :=
  if !validRating rating then .error "ValidationError: rating"
  else if !validDisposition disposition then .error "ValidationError: disposition"
  else .ok ⟨lead_id, customer_id, rating, disposition, comment, submitted_at⟩

/-- Model of the pydantic EmailStr validator (an external library check, not
re-specified by the spec): accepts strings of shape lp@dom with a nonempty
local part, exactly one @, and a nonempty domain containing a dot.  The
development relies only on this being a fixed decidable predicate that accepts
the sample addresses and rejects some strings. -/
def validEmail (s : String) : Bool :=
  match s.data.dropWhile (fun c => c != '@') with
  | '@' :: dom =>
    !(s.data.takeWhile (fun c => c != '@')).isEmpty &&
      !dom.isEmpty && !dom.contains '@' && dom.contains '.'
  | _ => false

/-- The Optional EmailStr field constraint of schemas.Lead: absent or valid. -/
def validOptEmail : Option String → Bool
  | none => true
  | some e => validEmail e

/-- Pydantic validation performed when main.py constructs a schemas.Lead value
(the Optional EmailStr email field); a validation failure is a raised (and in
main.py uncaught) exception. -/
def mkLead (customer_id name : String) (email phone source : Option String) :
    Except String Lead :=
  if !validOptEmail email then .error "ValidationError: email"
  else .ok { customer_id := customer_id, name := name, email := email,
             phone := phone, source := source, status := "new", notes := none }

/-- Modelled from the spec: database.get_documents — find-many by filter with
a result limit, in store order. -/
def get_documents {α : Type} (coll : List α) (filt : α → Bool) (limit : Nat) : List α :=
  (coll.filter filt).take limit

/-- Modelled from the spec: database.create_document on the lead collection —
insert-one with a store-generated identifier, returning that identifier
rendered as text. -/
def create_document_lead (db : DB) (data : Lead) : String × DB :=
  (oidRepr db.nextId,
    { db with lead := db.lead ++ [⟨db.nextId, data⟩], nextId := db.nextId + 1 })

/-- Modelled from the spec: database.create_document on the feedback collection. -/
def create_document_feedback (db : DB) (data : Feedback) : String × DB :=
  (oidRepr db.nextId,
    { db with feedback := db.feedback ++ [⟨db.nextId, data⟩], nextId := db.nextId + 1 })

/-- Modelled from the spec: database.create_document on the admin collection. -/
def create_document_admin (db : DB) (data : Admin) : String × DB :=
  (oidRepr db.nextId,
    { db with admin := db.admin ++ [⟨db.nextId, data⟩], nextId := db.nextId + 1 })

/-- Errors surfaced by a handler: a raised HTTPException (status, detail) or an
uncaught Python exception propagating out of the handler. -/
inductive ApiErr where
  | http (status : Nat) (detail : String)
  | exn (msg : String)
deriving DecidableEq

structure LoginRequest where
  email : String
  password : String
deriving DecidableEq

structure LoginResponse where
  token : String
  customer_id : String
  name : String
deriving DecidableEq

structure LeadCreate where
  name : String
  email : Option String := none
  phone : Option String := none
  source : Option String := none
deriving DecidableEq

structure FeedbackCreate where
  lead_id : String
  rating : Option Int := none
  disposition : Option String := none
  comment : Option String := none
deriving DecidableEq

/-- main.get_customer_by_email: find_one on the customer collection by email
(None when the store is not configured). -/
def get_customer_by_email (dbo : Option DB) (email : String) : Option StoredCustomer :=
  match dbo with
  | none => none
  | some db => db.customer.find? (fun sc => sc.doc.email == email)

/-- main.login (POST /auth/login). -/
def login (dbo : Option DB) (payload : LoginRequest) : Except ApiErr LoginResponse :=
  match dbo with
  | none => .error (.http 500 "Database not configured")
  | some db =>
    match get_customer_by_email (some db) payload.email with
    | none => .error (.http 401 "Invalid credentials")
    | some customer =>
      if payload.password ≠ customer.doc.password_hash then
        .error (.http 401 "Invalid credentials")
      else
        .ok ⟨oidRepr customer._id, oidRepr customer._id, customer.doc.name⟩

/-- main.get_current_customer: resolves the Authorization header to a stored
Customer.  Python treats the empty header like a missing one (`if not
authorization`); the header value has every occurrence of "Bearer " removed
and the remainder is parsed as a store identifier. -/
def get_current_customer (dbo : Option DB) (authorization : Option String) :
    Except ApiErr StoredCustomer :=
  match dbo with
  | none => .error (.http 500 "Database not configured")
  | some db =>
    match authorization with
    | none => .error (.http 401 "Missing token")
    | some a =>
      if a = "" then .error (.http 401 "Missing token")
      else
        match oidParse (pyReplace a "Bearer " "") with
        | none => .error (.http 401 "Invalid token")
        | some oid =>
          match db.customer.find? (fun sc => sc._id == oid) with
          | none => .error (.http 401 "Invalid token")
          | some customer => .ok customer

/-- A lead as rendered by GET /leads: the stored record with its identifier
converted to text. -/
structure LeadOut where
  _id : String
  doc : Lead
deriving DecidableEq

/-- A feedback record as rendered by GET /feedback/lead_id. -/
structure FeedbackOut where
  _id : String
  doc : Feedback
deriving DecidableEq

/-- main.create_lead (POST /leads): resolve the caller, build a schemas.Lead
with customer_id set to the caller's identifier (status defaults to "new";
pydantic validates the Optional EmailStr email field here, and a validation
failure is an uncaught exception), insert it and return the generated
identifier together with the new store state. -/
def create_lead (dbo : Option DB) (authorization : Option String)
    (payload : LeadCreate) : Except ApiErr (String × DB) :=
  match dbo with
  | none => .error (.http 500 "Database not configured")
  | some db =>
    match get_current_customer (some db) authorization with
    | .error e => .error e
    | .ok customer =>
      match mkLead (oidRepr customer._id) payload.name payload.email
          payload.phone payload.source with
      | .error msg => .error (.exn msg)
      | .ok data => .ok (create_document_lead db data)

/-- main.list_leads (GET /leads): up to 100 leads whose customer_id equals the
caller's identifier, each with its identifier rendered as text. -/
def list_leads (dbo : Option DB) (authorization : Option String) :
    Except ApiErr (List LeadOut) :=
  match dbo with
  | none => .error (.http 500 "Database not configured")
  | some db =>
    match get_current_customer (some db) authorization with
    | .error e => .error e
    | .ok customer =>
      .ok ((get_documents db.lead
          (fun sl => sl.doc.customer_id == oidRepr customer._id) 100).map
        (fun sl => ⟨oidRepr sl._id, sl.doc⟩))

/-- Python `x or y` on an optional string: y when x is None or the empty
string (both falsy), x otherwise. -/
def pyOrStr (x : Option String) (y : String) : String :=
  match x with
  | none => y
  | some s => if s = "" then y else s

/-- main.submit_feedback (POST /feedback).  ObjectId(payload.lead_id) is NOT
wrapped in try/except here, so a malformed lead_id raises an uncaught
exception; so does a pydantic validation failure in Feedback(...).  The
current timestamp is passed in as `now`. -/
def submit_feedback (dbo : Option DB) (authorization : Option String)
    (payload : FeedbackCreate) (now : Nat) : Except ApiErr (String × DB) :=
  match dbo with
  | none => .error (.http 500 "Database not configured")
  | some db =>
    match get_current_customer (some db) authorization with
    | .error e => .error e
    | .ok customer =>
      match oidParse payload.lead_id with
      | none => .error (.exn "bson.errors.InvalidId")
      | some loid =>
        match db.lead.find? (fun sl =>
            sl._id == loid && sl.doc.customer_id == oidRepr customer._id) with
        | none => .error (.http 404 "Lead not found")
        | some _ =>
          match mkFeedback payload.lead_id (oidRepr customer._id) payload.rating
              (pyOrStr payload.disposition "follow_up") payload.comment (some now) with
          | .error msg => .error (.exn msg)
          | .ok data => .ok (create_document_feedback db data)

/-- main.get_feedback_for_lead (GET /feedback/lead_id): same existence and
ownership check as submit_feedback (with the same uncaught exception on a
malformed lead_id), then up to 200 feedback records matching both lead_id and
the caller's identifier, identifiers rendered as text. -/
def get_feedback_for_lead (dbo : Option DB) (lead_id : String)
    (authorization : Option String) : Except ApiErr (List FeedbackOut) :=
  match dbo with
  | none => .error (.http 500 "Database not configured")
  | some db =>
    match get_current_customer (some db) authorization with
    | .error e => .error e
    | .ok customer =>
      match oidParse lead_id with
      | none => .error (.exn "bson.errors.InvalidId")
      | some loid =>
        match db.lead.find? (fun sl =>
            sl._id == loid && sl.doc.customer_id == oidRepr customer._id) with
        | none => .error (.http 404 "Lead not found")
        | some _ =>
          .ok ((get_documents db.feedback
              (fun sf => sf.doc.lead_id == lead_id &&
                sf.doc.customer_id == oidRepr customer._id) 200).map
            (fun sf => ⟨oidRepr sf._id, sf.doc⟩))

/-- The body of main.ensure_default_admin as it would run without the
surrounding try/except: returns early when the store is not configured,
otherwise checks for an admin named "admin" and inserts the default one when
absent.  `storeFails` models the store raising (e.g. unreachable) on access;
the resulting exception is represented as an Except.error. -/
def ensure_default_admin_body (dbo : Option DB) (storeFails : Bool) :
    Except String (Option DB) :=
  match dbo with
  | none => .ok none
  | some db =>
    if storeFails then .error "store unreachable"
    else
      match db.admin.find? (fun sa => sa.doc.username == "admin") with
      | some _ => .ok (some db)
      | none =>
        .ok (some (create_document_admin db
          { username := "admin", password_hash := "admin", role := "admin" }).2)

/-- main.ensure_default_admin: the body above with every exception caught and
ignored (`except Exception: pass`), leaving the store as it was. -/
def ensure_default_admin (dbo : Option DB) (storeFails : Bool) : Option DB :=
  match ensure_default_admin_body dbo storeFails with
  | .ok r => r
  | .error _ => dbo

/-- main.startup_event: best-effort admin seed at process startup. -/
def startup_event (dbo : Option DB) (storeFails : Bool) : Option DB :=
  ensure_default_admin dbo storeFails

/-- Number of records in the admin collection whose username is "admin". -/
def countAdmin (db : DB) : Nat :=
  (db.admin.filter (fun sa => sa.doc.username == "admin")).length

def countAdminO : Option DB → Nat
  | none => 0
  | some db => countAdmin db

/-- Store-generated identifiers are unique across the customer collection. -/
def customerIdsNodup (db : DB) : Prop :=
  (db.customer.map (fun sc => sc._id)).Nodup

/-- The spec's assumption that customer emails are unique login identities. -/
def customerEmailsNodup (db : DB) : Prop :=
  (db.customer.map (fun sc => sc.doc.email)).Nodup

instance (db : DB) : Decidable (customerIdsNodup db) := by
  unfold customerIdsNodup; infer_instance

instance (db : DB) : Decidable (customerEmailsNodup db) := by
  unfold customerEmailsNodup; infer_instance

/-- A concrete store used to witness the claim theorems: two customers and one
lead owned by the first of them. -/
def sampleAlice : Customer :=
  { name := "Alice", email := "a@x.com", password_hash := "pw1" }

def sampleBob : Customer :=
  { name := "Bob", email := "b@x.com", password_hash := "pw2" }

def sampleDB : DB :=
  { customer := [⟨0, sampleAlice⟩, ⟨1, sampleBob⟩],
    lead := [⟨2, { customer_id := "0", name := "Jane" }⟩],
    nextId := 3 }

/-- A stored customer with its is_active flag overwritten when its identifier
is i (identity otherwise). -/
def flipActive (sc : StoredCustomer) (i : Nat) (b : Bool) : StoredCustomer :=
  if sc._id = i then { sc with doc := { sc.doc with is_active := b } } else sc

/-- The store with customer i's is_active flag overwritten. -/
def setActive (db : DB) (i : Nat) (b : Bool) : DB :=
  { db with customer := db.customer.map (fun sc => flipActive sc i b) }

theorem ofDigitsLE_toDigitsRev (fuel : Nat) :
    ∀ n : Nat, n ≤ fuel → ofDigitsLE (toDigitsRev fuel n) = n := by
  induction fuel with
  | zero =>
    intro n hn
    interval_cases n
    rfl
  | succ f ih =>
    intro n hn
    by_cases h0 : n = 0
    · subst h0; simp [toDigitsRev, ofDigitsLE]
    · have hdiv : n / 10 ≤ f := by
        have h1 : n / 10 < n := Nat.div_lt_self (Nat.pos_of_ne_zero h0) (by omega)
        omega
      simp only [toDigitsRev, if_neg h0, ofDigitsLE, ih (n / 10) hdiv]
      omega

theorem toDigitsRev_lt_ten (fuel : Nat) :
    ∀ n d : Nat, d ∈ toDigitsRev fuel n → d < 10 := by
  induction fuel with
  | zero => intro n d h; simp [toDigitsRev] at h
  | succ f ih =>
    intro n d h
    by_cases h0 : n = 0
    · subst h0; simp [toDigitsRev] at h
    · simp only [toDigitsRev, if_neg h0, List.mem_cons] at h
      rcases h with h | h
      · omega
      · exact ih _ _ h

theorem toDigitsRev_ne_nil (fuel n : Nat) (hf : fuel ≠ 0) (hn : n ≠ 0) :
    toDigitsRev fuel n ≠ [] := by
  match fuel with
  | 0 => exact absurd rfl hf
  | f + 1 => simp [toDigitsRev, hn]

theorem toNat_digitChar : ∀ d : Nat, d < 10 → (digitChar d).toNat = 48 + d := by
  decide

theorem isOidDigit_digitChar : ∀ d : Nat, d < 10 → isOidDigit (digitChar d) = true := by
  decide

theorem decodeDigits_rev_map (ds : List Nat) (hds : ∀ d ∈ ds, d < 10) :
    decodeDigits ((ds.map digitChar).reverse) = ofDigitsLE ds := by
  induction ds with
  | nil => rfl
  | cons d t ih =>
    have hd : d < 10 := hds d (List.mem_cons_self ..)
    have ht : ∀ x ∈ t, x < 10 := fun x hx => hds x (List.mem_cons_of_mem _ hx)
    simp only [List.map_cons, List.reverse_cons, decodeDigits, List.foldl_append] at *
    simp only [List.foldl_cons, List.foldl_nil]
    rw [ih ht, toNat_digitChar d hd, ofDigitsLE]
    omega

theorem mem_data_oidRepr (n : Nat) :
    ∀ c ∈ (oidRepr n).data, isOidDigit c = true := by
  intro c hc
  by_cases h0 : n = 0
  · subst h0
    simp only [oidRepr, if_pos rfl] at hc
    have : c = '0' := by
      simpa using hc
    subst this
    decide
  · simp only [oidRepr, if_neg h0, List.mem_reverse, List.mem_map] at hc
    obtain ⟨d, hd, rfl⟩ := hc
    exact isOidDigit_digitChar d (toDigitsRev_lt_ten n n d hd)

theorem oidRepr_ne_empty (n : Nat) : oidRepr n ≠ "" := by
  by_cases h0 : n = 0
  · subst h0; decide
  · simp only [oidRepr, if_neg h0]
    intro h
    have hdata : ((toDigitsRev n n).map digitChar).reverse = ([] : List Char) :=
      congrArg String.data h
    have := toDigitsRev_ne_nil n n h0 h0
    simp at hdata
    exact this hdata

theorem oidParse_oidRepr (n : Nat) : oidParse (oidRepr n) = some n := by
  by_cases h0 : n = 0
  · subst h0; decide
  · have hne : (oidRepr n).data ≠ [] := by
      intro h
      exact oidRepr_ne_empty n (by
        have : oidRepr n = ⟨[]⟩ := by cases hrep : oidRepr n with
          | mk l => simp only [hrep] at h; subst h; rfl
        simpa using this)
    have hall : (oidRepr n).data.all isOidDigit = true :=
      List.all_eq_true.mpr fun c hc => mem_data_oidRepr n c hc
    simp only [oidParse, List.isEmpty_iff, if_neg hne, if_pos hall]
    have hdata : (oidRepr n).data = ((toDigitsRev n n).map digitChar).reverse := by
      simp [oidRepr, if_neg h0]
    rw [hdata, decodeDigits_rev_map _ (fun d hd => toDigitsRev_lt_ten n n d hd),
      ofDigitsLE_toDigitsRev n n (Nat.le_refl n)]

theorem oidRepr_injective {m n : Nat} (h : oidRepr m = oidRepr n) : m = n := by
  have hm := oidParse_oidRepr m
  have hn := oidParse_oidRepr n
  rw [h, hn] at hm
  exact (Option.some_injective _ hm).symm

theorem isPrefixOf_append_self (p l : List Char) : p.isPrefixOf (p ++ l) = true := by
  induction p with
  | nil => simp [List.isPrefixOf]
  | cons a as ih => simp [List.isPrefixOf, ih]

theorem pyReplaceFuel_fuel_irrel (pat rep : List Char) :
    ∀ f1 f2 s, s.length ≤ f1 → s.length ≤ f2 →
      pyReplaceFuel pat rep f1 s = pyReplaceFuel pat rep f2 s := by
  intro f1
  induction f1 with
  | zero =>
    intro f2 s h1 _
    have : s = [] := List.eq_nil_of_length_eq_zero (Nat.le_zero.mp h1)
    subst this
    cases f2 <;> rfl
  | succ f ih =>
    intro f2 s h1 h2
    cases s with
    | nil => cases f2 <;> rfl
    | cons c rest =>
      cases f2 with
      | zero => simp at h2
      | succ f2' =>
        simp only [pyReplaceFuel]
        by_cases hcond : (!pat.isEmpty && pat.isPrefixOf (c :: rest)) = true
        · rw [if_pos hcond, if_pos hcond]
          have hplen : 1 ≤ pat.length := by
            cases pat with
            | nil => simp at hcond
            | cons a as => simp
          have hlen : ((c :: rest).drop pat.length).length ≤ f := by
            simp only [List.length_drop, List.length_cons]
            simp only [List.length_cons] at h1
            omega
          have hlen2 : ((c :: rest).drop pat.length).length ≤ f2' := by
            simp only [List.length_drop, List.length_cons]
            simp only [List.length_cons] at h2
            omega
          rw [ih f2' _ hlen hlen2]
        · rw [if_neg hcond, if_neg hcond]
          have hlen : rest.length ≤ f := by simp only [List.length_cons] at h1; omega
          have hlen2 : rest.length ≤ f2' := by simp only [List.length_cons] at h2; omega
          rw [ih f2' _ hlen hlen2]

theorem pyReplaceFuel_no_head_char (pat rep : List Char) (p : Char) (ps : List Char)
    (hpat : pat = p :: ps) :
    ∀ fuel s, (∀ c ∈ s, c ≠ p) → pyReplaceFuel pat rep fuel s = s := by
  intro fuel
  induction fuel with
  | zero => intro s _; rfl
  | succ f ih =>
    intro s hs
    cases s with
    | nil => rfl
    | cons c rest =>
      have hcp : c ≠ p := hs c (List.mem_cons_self ..)
      have hcond : (!pat.isEmpty && pat.isPrefixOf (c :: rest)) = false := by
        subst hpat
        have hne : (p == c) = false := beq_eq_false_iff_ne.mpr (Ne.symm hcp)
        simp [List.isPrefixOf, hne]
      simp only [pyReplaceFuel, hcond, Bool.false_eq_true, if_false, List.cons.injEq, true_and]
      exact ih rest (fun x hx => hs x (List.mem_cons_of_mem _ hx))

theorem pyReplace_strip_bearer (s : String) :
    pyReplace ("Bearer " ++ s) "Bearer " "" = pyReplace s "Bearer " "" := by
  have hdata : ("Bearer " ++ s).data = "Bearer ".data ++ s.data := rfl
  simp only [pyReplace, hdata]
  have hlen : ("Bearer ".data ++ s.data).length = 7 + s.data.length := by
    have h7 : ("Bearer ".data).length = 7 := rfl
    rw [List.length_append, h7]
  rw [hlen]
  have hstep :
      pyReplaceFuel "Bearer ".data [] (7 + s.data.length) ("Bearer ".data ++ s.data) =
        pyReplaceFuel "Bearer ".data [] (6 + s.data.length) s.data := by
    have h7 : 7 + s.data.length = (6 + s.data.length) + 1 := by omega
    rw [h7]
    show pyReplaceFuel "Bearer ".data [] ((6 + s.data.length) + 1)
        ('B' :: ("earer ".data ++ s.data)) = _
    have hcond : (!("Bearer ".data).isEmpty &&
        ("Bearer ".data).isPrefixOf ('B' :: ("earer ".data ++ s.data))) = true := by
      have : 'B' :: ("earer ".data ++ s.data) = "Bearer ".data ++ s.data := rfl
      rw [this]
      simp [isPrefixOf_append_self]
    simp only [pyReplaceFuel, hcond, if_true, List.nil_append]
    have hdrop : ('B' :: ("earer ".data ++ s.data)).drop ("Bearer ".data).length = s.data := by
      have : 'B' :: ("earer ".data ++ s.data) = "Bearer ".data ++ s.data := rfl
      rw [this]
      exact List.drop_left _ _
    rw [hdrop]
  rw [hstep]
  exact congrArg String.mk
    (pyReplaceFuel_fuel_irrel _ _ _ _ _ (by omega) (Nat.le_refl _))

theorem pyReplace_oidRepr (n : Nat) :
    pyReplace (oidRepr n) "Bearer " "" = oidRepr n := by
  have hchars : ∀ c ∈ (oidRepr n).data, c ≠ 'B' := by
    intro c hc
    have := mem_data_oidRepr n c hc
    simp only [isOidDigit, decide_eq_true_eq] at this
    intro hB
    subst hB
    revert this
    decide
  simp only [pyReplace]
  rw [pyReplaceFuel_no_head_char "Bearer ".data [] 'B' "earer ".data rfl _ _ hchars]

theorem find?_key_of_nodup {α β : Type} [DecidableEq β] (key : α → β) :
    ∀ (l : List α) (a : α), (l.map key).Nodup → a ∈ l →
      l.find? (fun x => key x == key a) = some a := by
  intro l
  induction l with
  | nil => intro a _ ha; simp at ha
  | cons b t ih =>
    intro a hnd ha
    simp only [List.map_cons, List.nodup_cons] at hnd
    obtain ⟨hbt, hndt⟩ := hnd
    by_cases hb : key b = key a
    · have hab : a = b := by
        rcases List.mem_cons.mp ha with h | h
        · exact h
        · exact absurd (hb ▸ List.mem_map_of_mem key h) hbt
      subst hab
      simp [List.find?, beq_iff_eq, hb]
    · have hat : a ∈ t := by
        rcases List.mem_cons.mp ha with h | h
        · exact absurd (congrArg key h.symm) hb
        · exact h
      have hpred : (key b == key a) = false := beq_eq_false_iff_ne.mpr hb
      simp only [List.find?, hpred]
      exact ih a hndt hat

theorem find?_map_congr {α : Type} (f : α → α) (p : α → Bool)
    (h : ∀ x, p (f x) = p x) :
    ∀ l : List α, (l.map f).find? p = (l.find? p).map f := by
  intro l
  induction l with
  | nil => rfl
  | cons b t ih =>
    simp only [List.map_cons, List.find?]
    rw [h b]
    cases hp : p b with
    | false => exact ih
    | true => rfl

/-- C3: login with a stored customer's email and its stored password_hash
(compared verbatim) returns a token equal to the stringified identifier of
that record, plus that identifier and the customer's name; an email matching
no record, or a password differing from the matched record's password_hash,
yields Unauthorized (401).  Email uniqueness is the spec's stated data-model
assumption ("email (unique login identity)"). -/
theorem C3_login_correctness (db : DB) (sc : StoredCustomer) (payload : LoginRequest) :
    (customerEmailsNodup db → sc ∈ db.customer →
      login (some db) ⟨sc.doc.email, sc.doc.password_hash⟩ =
        .ok ⟨oidRepr sc._id, oidRepr sc._id, sc.doc.name⟩) ∧
    ((∀ c ∈ db.customer, c.doc.email ≠ payload.email) →
      login (some db) payload = .error (.http 401 "Invalid credentials")) ∧
    (customerEmailsNodup db → sc ∈ db.customer → sc.doc.email = payload.email →
      payload.password ≠ sc.doc.password_hash →
      login (some db) payload = .error (.http 401 "Invalid credentials")) := by
  refine ⟨?_, ?_, ?_⟩
  · intro hnd hmem
    have hfind : db.customer.find? (fun c => c.doc.email == sc.doc.email) = some sc :=
      find?_key_of_nodup (fun c => c.doc.email) db.customer sc
        (show (db.customer.map (fun c => c.doc.email)).Nodup from hnd) hmem
    simp [login, get_customer_by_email, hfind]
  · intro hno
    have hfind : db.customer.find? (fun c => c.doc.email == payload.email) = none :=
      List.find?_eq_none.mpr fun c hc => by
        simpa [beq_iff_eq] using hno c hc
    simp [login, get_customer_by_email, hfind]
  · intro hnd hmem hemail hpw
    have hfind : db.customer.find? (fun c => c.doc.email == sc.doc.email) = some sc :=
      find?_key_of_nodup (fun c => c.doc.email) db.customer sc
        (show (db.customer.map (fun c => c.doc.email)).Nodup from hnd) hmem
    rw [hemail] at hfind
    simp [login, get_customer_by_email, hfind, hpw]

theorem C3_login_correctness_witness :
    customerEmailsNodup sampleDB ∧ (⟨1, sampleBob⟩ : StoredCustomer) ∈ sampleDB.customer ∧
    login (some sampleDB) ⟨sampleBob.email, sampleBob.password_hash⟩ =
      .ok ⟨oidRepr 1, oidRepr 1, sampleBob.name⟩ :=
  ⟨by decide, by decide,
    (C3_login_correctness sampleDB ⟨1, sampleBob⟩ ⟨"", ""⟩).1 (by decide) (by decide)⟩

/-- C4: resolving the bearer token fails with the store-unavailable error
(surfaced as status 500) when the store is not configured; fails with
Unauthorized (401) when the Authorization header is absent (or empty, which
Python treats the same), when the token left after removing "Bearer " cannot
be parsed as a store identifier, or when no customer record has that
identifier; otherwise returns exactly the customer record whose identifier the
token equals (identifiers are unique, being store-generated). -/
theorem C4_token_resolution (db : DB) (auth : Option String) :
    (get_current_customer none auth = .error (.http 500 "Database not configured")) ∧
    (auth = none → get_current_customer (some db) auth = .error (.http 401 "Missing token")) ∧
    (∀ a, auth = some a → a ≠ "" →
      oidParse (pyReplace a "Bearer " "") = none →
      get_current_customer (some db) auth = .error (.http 401 "Invalid token")) ∧
    (∀ a oid, auth = some a → a ≠ "" →
      oidParse (pyReplace a "Bearer " "") = some oid →
      (∀ sc ∈ db.customer, sc._id ≠ oid) →
      get_current_customer (some db) auth = .error (.http 401 "Invalid token")) ∧
    (∀ a oid sc, customerIdsNodup db → auth = some a → a ≠ "" →
      oidParse (pyReplace a "Bearer " "") = some oid →
      sc ∈ db.customer → sc._id = oid →
      get_current_customer (some db) auth = .ok sc) := by
  refine ⟨rfl, ?_, ?_, ?_, ?_⟩
  · intro h; subst h; rfl
  · intro a ha hne hparse
    subst ha
    simp [get_current_customer, hne, hparse]
  · intro a oid ha hne hparse hno
    subst ha
    have hfind : db.customer.find? (fun sc => sc._id == oid) = none :=
      List.find?_eq_none.mpr fun sc hsc => by
        simpa [beq_iff_eq] using hno sc hsc
    simp [get_current_customer, hne, hparse, hfind]
  · intro a oid sc hnd ha hne hparse hmem hid
    subst ha
    subst hid
    have hfind : db.customer.find? (fun x => x._id == sc._id) = some sc :=
      find?_key_of_nodup (fun x => x._id) db.customer sc
        (show (db.customer.map (fun x => x._id)).Nodup from hnd) hmem
    simp [get_current_customer, hne, hparse, hfind]

theorem C4_token_resolution_witness :
    customerIdsNodup sampleDB ∧
    oidParse (pyReplace "Bearer 1" "Bearer " "") = some 1 ∧
    get_current_customer (some sampleDB) (some "Bearer 1") = .ok ⟨1, sampleBob⟩ :=
  ⟨by decide, by decide,
    (C4_token_resolution sampleDB (some "Bearer 1")).2.2.2.2 "Bearer 1" 1 ⟨1, sampleBob⟩
      (by decide) rfl (by decide) (by decide) (by decide) rfl⟩

theorem mkLead_fields (cid nm : String) (em ph so : Option String) (data : Lead)
    (h : mkLead cid nm em ph so = .ok data) :
    data = { customer_id := cid, name := nm, email := em, phone := ph,
             source := so, status := "new", notes := none } := by
  unfold mkLead at h
  split at h
  · exact absurd h (by simp)
  · simpa using h.symm

/-- C6: for an authenticated customer, POST /leads with a schema-valid payload
(email absent or accepted by the EmailStr validator — an invalid email string
instead raises an uncaught validation error and persists nothing) persists
exactly one Lead (appended to the lead collection; no other collection
changes) whose customer_id is the caller's identifier rendered as text and
whose status is "new", and returns the newly generated identifier of that
record. -/
theorem C6_create_lead_postcondition (db : DB) (auth : Option String)
    (customer : StoredCustomer) (payload : LeadCreate)
    (hc : get_current_customer (some db) auth = .ok customer)
    (hemail : validOptEmail payload.email = true) :
    create_lead (some db) auth payload =
      .ok (oidRepr db.nextId,
        { db with
          lead := db.lead ++ [⟨db.nextId,
            { customer_id := oidRepr customer._id, name := payload.name,
              email := payload.email, phone := payload.phone,
              source := payload.source, status := "new", notes := none }⟩],
          nextId := db.nextId + 1 }) := by
  simp [create_lead, hc, mkLead, hemail, create_document_lead]

theorem C6_create_lead_postcondition_witness :
    validOptEmail ({ name := "Kim" } : LeadCreate).email = true ∧
    create_lead (some sampleDB) (some "0") { name := "Kim" } =
      .ok (oidRepr sampleDB.nextId,
        { sampleDB with
          lead := sampleDB.lead ++ [⟨sampleDB.nextId,
            { customer_id := oidRepr 0, name := "Kim", email := none,
              phone := none, source := none, status := "new", notes := none }⟩],
          nextId := sampleDB.nextId + 1 }) :=
  ⟨by decide,
    C6_create_lead_postcondition sampleDB (some "0") ⟨0, sampleAlice⟩ { name := "Kim" }
      (by decide) (by decide)⟩

/-- C8: every failure raised inside the startup check-and-insert of the
default admin is caught and ignored (the store is left as it was and the
function returns normally), including the unconfigured-store and
store-unreachable cases, and startup runs exactly this best-effort step. -/
theorem C8_seed_failures_swallowed (dbo : Option DB) (storeFails : Bool) (db : DB) :
    (∀ e, ensure_default_admin_body dbo storeFails = .error e →
      ensure_default_admin dbo storeFails = dbo) ∧
    ensure_default_admin (some db) true = some db ∧
    ensure_default_admin none storeFails = none ∧
    startup_event dbo storeFails = ensure_default_admin dbo storeFails := by
  refine ⟨?_, rfl, ?_, rfl⟩
  · intro e he
    simp [ensure_default_admin, he]
  · cases storeFails <;> rfl

theorem C8_seed_failures_swallowed_witness :
    ensure_default_admin_body (some sampleDB) true = .error "store unreachable" ∧
    ensure_default_admin (some sampleDB) true = some sampleDB :=
  ⟨by decide,
    (C8_seed_failures_swallowed (some sampleDB) true sampleDB).1 "store unreachable"
      (by decide)⟩

theorem countAdminO_ensure_le (dbo : Option DB) (f : Bool) :
    countAdminO (ensure_default_admin dbo f) ≤ max (countAdminO dbo) 1 := by
  match dbo with
  | none => simp [ensure_default_admin, ensure_default_admin_body, countAdminO]
  | some db =>
    cases f with
    | true =>
      have hrun : ensure_default_admin (some db) true = some db := rfl
      rw [hrun]
      simp only [countAdminO]
      omega
    | false =>
      cases hfind : db.admin.find? (fun sa => sa.doc.username == "admin") with
      | some x =>
        have hrun : ensure_default_admin (some db) false = some db := by
          simp [ensure_default_admin, ensure_default_admin_body, hfind]
        rw [hrun]
        simp only [countAdminO]
        omega
      | none =>
        have hnil : db.admin.filter (fun sa => sa.doc.username == "admin") = [] :=
          List.filter_eq_nil_iff.mpr fun sa hsa => by
            simpa using List.find?_eq_none.mp hfind sa hsa
        simp only [ensure_default_admin, ensure_default_admin_body, hfind, countAdminO,
          countAdmin, create_document_admin]
        simp [List.filter_append, hnil]

theorem countAdminO_foldl_le (fs : List Bool) :
    ∀ dbo : Option DB, countAdminO dbo ≤ 1 →
      countAdminO (fs.foldl ensure_default_admin dbo) ≤ 1 := by
  induction fs with
  | nil => intro dbo h; exact h
  | cons f fs ih =>
    intro dbo h
    have hstep := countAdminO_ensure_le dbo f
    exact ih (ensure_default_admin dbo f) (by omega)

/-- C5: the startup seeding step inserts a record with username "admin",
password_hash "admin" and is_active true exactly when no record with username
"admin" exists, and otherwise leaves the store unchanged; consequently running
it twice — or any sequence of runs, with or without store failures — over a
store holding at most one "admin" record never yields two records with
username "admin". -/
theorem C5_admin_seed_idempotent (db : DB) (f f' : Bool) (dbo : Option DB)
    (fs : List Bool) :
    (countAdmin db = 0 →
      ensure_default_admin (some db) false =
        some { db with
          admin := db.admin ++ [⟨db.nextId,
            { username := "admin", password_hash := "admin", role := "admin",
              is_active := true }⟩],
          nextId := db.nextId + 1 }) ∧
    (0 < countAdmin db → ensure_default_admin (some db) f = some db) ∧
    (countAdminO dbo ≤ 1 →
      countAdminO (ensure_default_admin (ensure_default_admin dbo f) f') ≤ 1) ∧
    (countAdminO dbo ≤ 1 → countAdminO (fs.foldl ensure_default_admin dbo) ≤ 1) := by
  refine ⟨?_, ?_, ?_, fun h => countAdminO_foldl_le fs dbo h⟩
  · intro h0
    have hnil : db.admin.filter (fun sa => sa.doc.username == "admin") = [] :=
      List.length_eq_zero.mp h0
    have hfind : db.admin.find? (fun sa => sa.doc.username == "admin") = none :=
      List.find?_eq_none.mpr fun sa hsa => by
        have := List.filter_eq_nil_iff.mp hnil sa hsa
        simpa using this
    simp [ensure_default_admin, ensure_default_admin_body, hfind, create_document_admin]
  · intro hpos
    have hpos' : 0 < (db.admin.filter (fun sa => sa.doc.username == "admin")).length :=
      hpos
    obtain ⟨y, hy⟩ := List.exists_mem_of_length_pos hpos'
    have hmem := List.mem_filter.mp hy
    cases hfind : db.admin.find? (fun sa => sa.doc.username == "admin") with
    | none => exact absurd hmem.2 (by simpa using List.find?_eq_none.mp hfind y hmem.1)
    | some x =>
      cases f with
      | true => rfl
      | false => simp [ensure_default_admin, ensure_default_admin_body, hfind]
  · intro h
    have h1 := countAdminO_ensure_le dbo f
    have h2 := countAdminO_ensure_le (ensure_default_admin dbo f) f'
    omega

theorem C5_admin_seed_idempotent_witness :
    countAdmin sampleDB = 0 ∧
    ensure_default_admin (some sampleDB) false =
      some { sampleDB with
        admin := sampleDB.admin ++ [⟨sampleDB.nextId,
          { username := "admin", password_hash := "admin", role := "admin",
            is_active := true }⟩],
        nextId := sampleDB.nextId + 1 } :=
  ⟨by decide,
    (C5_admin_seed_idempotent sampleDB false false none []).1 (by decide)⟩

/-- C9: token resolution removes every occurrence of the substring "Bearer "
from the Authorization header, so the "Bearer " prefix is not required: for
every stored customer, a header holding the bare identifier string, the
well-formed "Bearer " prefixed form, or the prefix repeated twice, all resolve
to the same customer; and stripping one leading "Bearer " never changes the
computed token. -/
theorem C9_bearer_not_required (db : DB) (sc : StoredCustomer)
    (hnd : customerIdsNodup db) (hmem : sc ∈ db.customer) :
    get_current_customer (some db) (some (oidRepr sc._id)) = .ok sc ∧
    get_current_customer (some db) (some ("Bearer " ++ oidRepr sc._id)) = .ok sc ∧
    get_current_customer (some db) (some ("Bearer Bearer " ++ oidRepr sc._id)) = .ok sc ∧
    (∀ a : String, pyReplace ("Bearer " ++ a) "Bearer " "" = pyReplace a "Bearer " "") := by
  have hfind : db.customer.find? (fun x => x._id == sc._id) = some sc :=
    find?_key_of_nodup (fun x => x._id) db.customer sc
      (show (db.customer.map (fun x => x._id)).Nodup from hnd) hmem
  have hext : ∀ x y : String, x.data = y.data → x = y := by
    intro x y h
    cases x
    cases y
    exact congrArg String.mk h
  refine ⟨?_, ?_, ?_, fun a => pyReplace_strip_bearer a⟩
  · have hne : oidRepr sc._id ≠ "" := oidRepr_ne_empty _
    have hrepl : pyReplace (oidRepr sc._id) "Bearer " "" = oidRepr sc._id :=
      pyReplace_oidRepr _
    simp [get_current_customer, hne, hrepl, oidParse_oidRepr, hfind]
  · have hne : ("Bearer " ++ oidRepr sc._id) ≠ "" := by
      intro h
      have hdata : ("Bearer " ++ oidRepr sc._id).data = ("" : String).data :=
        congrArg String.data h
      have : "Bearer ".data ++ (oidRepr sc._id).data = [] := hdata
      simp at this
    have hrepl : pyReplace ("Bearer " ++ oidRepr sc._id) "Bearer " "" = oidRepr sc._id := by
      rw [pyReplace_strip_bearer, pyReplace_oidRepr]
    simp [get_current_customer, hne, hrepl, oidParse_oidRepr, hfind]
  · have hsplit : ("Bearer Bearer " ++ oidRepr sc._id) =
        "Bearer " ++ ("Bearer " ++ oidRepr sc._id) := by
      apply hext
      show "Bearer Bearer ".data ++ (oidRepr sc._id).data =
        "Bearer ".data ++ ("Bearer ".data ++ (oidRepr sc._id).data)
      rw [← List.append_assoc]
      rfl
    have hne : ("Bearer Bearer " ++ oidRepr sc._id) ≠ "" := by
      intro h
      have hdata : ("Bearer Bearer " ++ oidRepr sc._id).data = ("" : String).data :=
        congrArg String.data h
      have : "Bearer Bearer ".data ++ (oidRepr sc._id).data = [] := hdata
      simp at this
    have hrepl : pyReplace ("Bearer Bearer " ++ oidRepr sc._id) "Bearer " "" =
        oidRepr sc._id := by
      rw [hsplit, pyReplace_strip_bearer, pyReplace_strip_bearer, pyReplace_oidRepr]
    simp [get_current_customer, hne, hrepl, oidParse_oidRepr, hfind]

theorem C9_bearer_not_required_witness :
    get_current_customer (some sampleDB) (some (oidRepr 0)) = .ok ⟨0, sampleAlice⟩ ∧
    get_current_customer (some sampleDB) (some ("Bearer " ++ oidRepr 0)) =
      .ok ⟨0, sampleAlice⟩ ∧
    get_current_customer (some sampleDB) (some ("Bearer Bearer " ++ oidRepr 0)) =
      .ok ⟨0, sampleAlice⟩ ∧
    (∀ a : String, pyReplace ("Bearer " ++ a) "Bearer " "" = pyReplace a "Bearer " "") :=
  C9_bearer_not_required sampleDB ⟨0, sampleAlice⟩ (by decide) (by decide)

/-- C1: GET /leads returns at most 100 records, only those whose customer_id
equals the caller's identifier rendered as text, each being a stored lead with
its identifier rendered as text; consequently a lead persisted by POST /leads
for a customer A with a different identifier is never contained in the list
returned to the caller B. -/
theorem C1_lead_list_tenant_isolation (db : DB) (authB : Option String)
    (B : StoredCustomer) (out : List LeadOut)
    (hB : get_current_customer (some db) authB = .ok B)
    (hout : list_leads (some db) authB = .ok out) :
    out.length ≤ 100 ∧
    (∀ lo ∈ out, lo.doc.customer_id = oidRepr B._id) ∧
    (∀ lo ∈ out, ∃ sl ∈ db.lead, lo = ⟨oidRepr sl._id, sl.doc⟩) ∧
    (∀ (A : StoredCustomer) (db0 db1 : DB) (authA : Option String)
        (p : LeadCreate) (s : String) (nl : StoredLead),
      get_current_customer (some db0) authA = .ok A → A._id ≠ B._id →
      create_lead (some db0) authA p = .ok (s, db1) →
      db1.lead = db0.lead ++ [nl] →
      ∀ lo ∈ out, lo.doc ≠ nl.doc) := by
  have hout' : ((db.lead.filter
        (fun sl => sl.doc.customer_id == oidRepr B._id)).take 100).map
      (fun sl => (⟨oidRepr sl._id, sl.doc⟩ : LeadOut)) = out := by
    simpa [list_leads, hB, get_documents] using hout
  subst hout'
  have hownr : ∀ lo ∈ ((db.lead.filter
        (fun sl => sl.doc.customer_id == oidRepr B._id)).take 100).map
      (fun sl => (⟨oidRepr sl._id, sl.doc⟩ : LeadOut)),
      lo.doc.customer_id = oidRepr B._id := by
    intro lo hlo
    obtain ⟨sl, hsl, rfl⟩ := List.mem_map.mp hlo
    have hsl' := List.take_subset 100 _ hsl
    exact beq_iff_eq.mp (List.mem_filter.mp hsl').2
  refine ⟨?_, hownr, ?_, ?_⟩
  · simp [List.length_map, List.length_take]
  · intro lo hlo
    obtain ⟨sl, hsl, rfl⟩ := List.mem_map.mp hlo
    have hsl' := List.take_subset 100 _ hsl
    exact ⟨sl, (List.mem_filter.mp hsl').1, rfl⟩
  · intro A db0 db1 authA p s nl hA hAB hcreate happ lo hlo
    simp only [create_lead, hA] at hcreate
    split at hcreate
    · exact absurd hcreate (by simp)
    rename_i data hmk
    have hdata := mkLead_fields _ _ _ _ _ _ hmk
    subst hdata
    simp only [create_document_lead] at hcreate
    have hdb1 : db1 = { db0 with
        lead := db0.lead ++ [⟨db0.nextId,
          { customer_id := oidRepr A._id, name := p.name, email := p.email,
            phone := p.phone, source := p.source, status := "new",
            notes := none }⟩],
        nextId := db0.nextId + 1 } := by
      have := (Except.ok.injEq _ _).mp hcreate.symm
      exact (Prod.mk.injEq ..).mp this |>.2
    rw [hdb1] at happ
    have hnl : (⟨db0.nextId,
        { customer_id := oidRepr A._id, name := p.name, email := p.email,
          phone := p.phone, source := p.source, status := "new",
          notes := none }⟩ : StoredLead) = nl := by
      have hsing := List.append_cancel_left (happ.symm :
        db0.lead ++ [nl] = db0.lead ++ [_])
      simpa using hsing.symm
    intro hcontra
    have hAeq : nl.doc.customer_id = oidRepr A._id := by rw [← hnl]
    have hBeq : lo.doc.customer_id = oidRepr B._id := hownr lo hlo
    rw [hcontra, hAeq] at hBeq
    exact hAB (oidRepr_injective hBeq)

theorem C1_lead_list_tenant_isolation_witness :
    ([] : List LeadOut).length ≤ 100 ∧
    (∀ lo ∈ ([] : List LeadOut), lo.doc.customer_id = oidRepr 1) ∧
    (∀ lo ∈ ([] : List LeadOut), ∃ sl ∈ sampleDB.lead, lo = ⟨oidRepr sl._id, sl.doc⟩) ∧
    (∀ (A : StoredCustomer) (db0 db1 : DB) (authA : Option String)
        (p : LeadCreate) (s : String) (nl : StoredLead),
      get_current_customer (some db0) authA = .ok A → A._id ≠ 1 →
      create_lead (some db0) authA p = .ok (s, db1) →
      db1.lead = db0.lead ++ [nl] →
      ∀ lo ∈ ([] : List LeadOut), lo.doc ≠ nl.doc) :=
  C1_lead_list_tenant_isolation sampleDB (some "1") ⟨1, sampleBob⟩ []
    (by decide) (by decide)

/-- C2 (amended): for every lead_id that the store's identifier parser
accepts, both POST /feedback and GET /feedback/lead_id fail with NotFound
(404, "Lead not found") whenever no lead exists with that identifier AND the
caller's customer_id — so a lead owned by another customer and a nonexistent
(but well-formed) lead_id produce literally identical NotFound errors, and no
feedback is written or returned.  (For a lead_id the parser rejects, the
handlers instead raise an uncaught invalid-id exception; see the
counterexample.) -/
theorem C2_feedback_ownership_check (db : DB) (auth : Option String)
    (c : StoredCustomer) (payload : FeedbackCreate) (lead_id : String)
    (loid : Nat) (now : Nat)
    (hc : get_current_customer (some db) auth = .ok c)
    (hparse : oidParse lead_id = some loid)
    (hnone : ∀ sl ∈ db.lead, ¬(sl._id = loid ∧ sl.doc.customer_id = oidRepr c._id))
    (hpl : payload.lead_id = lead_id) :
    submit_feedback (some db) auth payload now = .error (.http 404 "Lead not found") ∧
    get_feedback_for_lead (some db) lead_id auth =
      .error (.http 404 "Lead not found") := by
  have hfind : db.lead.find?
      (fun sl => sl._id == loid && sl.doc.customer_id == oidRepr c._id) = none :=
    List.find?_eq_none.mpr fun sl hsl => by
      simpa [Bool.and_eq_true, beq_iff_eq] using hnone sl hsl
  constructor
  · simp [submit_feedback, hc, hpl, hparse, hfind]
  · simp [get_feedback_for_lead, hc, hparse, hfind]

/-- C2 as stated is false: "zz" is accepted by no identifier parse and names
no stored lead, yet POST /feedback and GET /feedback/zz raise an uncaught
invalid-id exception (surfaced as a 500) instead of NotFound. -/
theorem C2_feedback_ownership_check_counterexample :
    (∀ sl ∈ sampleDB.lead, oidRepr sl._id ≠ "zz") ∧
    get_current_customer (some sampleDB) (some "0") = .ok ⟨0, sampleAlice⟩ ∧
    submit_feedback (some sampleDB) (some "0")
        { lead_id := "zz" } 0 = .error (.exn "bson.errors.InvalidId") ∧
    submit_feedback (some sampleDB) (some "0")
        { lead_id := "zz" } 0 ≠ .error (.http 404 "Lead not found") ∧
    get_feedback_for_lead (some sampleDB) "zz" (some "0") =
      .error (.exn "bson.errors.InvalidId") ∧
    get_feedback_for_lead (some sampleDB) "zz" (some "0") ≠
      .error (.http 404 "Lead not found") := by
  decide

theorem C2_feedback_ownership_check_witness :
    get_current_customer (some sampleDB) (some "1") = .ok ⟨1, sampleBob⟩ ∧
    oidParse "2" = some 2 ∧
    submit_feedback (some sampleDB) (some "1") { lead_id := "2" } 0 =
      .error (.http 404 "Lead not found") ∧
    get_feedback_for_lead (some sampleDB) "2" (some "1") =
      .error (.http 404 "Lead not found") :=
  ⟨by decide, by decide,
    (C2_feedback_ownership_check sampleDB (some "1") ⟨1, sampleBob⟩
      { lead_id := "2" } "2" 2 0 (by decide) (by decide) (by decide) rfl).1,
    (C2_feedback_ownership_check sampleDB (some "1") ⟨1, sampleBob⟩
      { lead_id := "2" } "2" 2 0 (by decide) (by decide) (by decide) rfl).2⟩

/-- C7: for an authenticated customer and a lead_id passing the existence and
ownership lookup, POST /feedback with schema-valid rating and disposition
persists exactly one feedback record (appended to the feedback collection)
carrying the caller's identifier, the supplied rating and comment, the
supplied disposition — "follow_up" when omitted — and the current timestamp,
and returns that record's generated identifier. -/
theorem C7_feedback_create_postcondition (db : DB) (auth : Option String)
    (c : StoredCustomer) (payload : FeedbackCreate) (loid : Nat)
    (sl : StoredLead) (now : Nat)
    (hc : get_current_customer (some db) auth = .ok c)
    (hparse : oidParse payload.lead_id = some loid)
    (hfind : db.lead.find?
      (fun x => x._id == loid && x.doc.customer_id == oidRepr c._id) = some sl)
    (hrating : validRating payload.rating = true)
    (hdisp : ∀ d, payload.disposition = some d → validDisposition d = true) :
    submit_feedback (some db) auth payload now =
      .ok (oidRepr db.nextId,
        { db with
          feedback := db.feedback ++ [⟨db.nextId,
            { lead_id := payload.lead_id, customer_id := oidRepr c._id,
              rating := payload.rating,
              disposition := pyOrStr payload.disposition "follow_up",
              comment := payload.comment, submitted_at := some now }⟩],
          nextId := db.nextId + 1 }) ∧
    (payload.disposition = none → pyOrStr payload.disposition "follow_up" = "follow_up") ∧
    (∀ d, payload.disposition = some d → pyOrStr payload.disposition "follow_up" = d) := by
  have hvalid : validDisposition (pyOrStr payload.disposition "follow_up") = true := by
    cases hd : payload.disposition with
    | none => decide
    | some d =>
      by_cases hde : d = ""
      · subst hde
        decide
      · simpa [pyOrStr, hde] using hdisp d hd
  refine ⟨?_, ?_, ?_⟩
  · simp [submit_feedback, hc, hparse, hfind, mkFeedback, hrating, hvalid,
      create_document_feedback]
  · intro hd; simp [hd, pyOrStr]
  · intro d hd
    have hv := hdisp d hd
    have hde : d ≠ "" := by
      intro h
      subst h
      revert hv
      decide
    simp [hd, pyOrStr, hde]

theorem C7_feedback_create_postcondition_witness :
    submit_feedback (some sampleDB) (some "0") { lead_id := "2", rating := some 5 } 7 =
      .ok (oidRepr sampleDB.nextId,
        { sampleDB with
          feedback := sampleDB.feedback ++ [⟨sampleDB.nextId,
            { lead_id := "2", customer_id := oidRepr 0, rating := some 5,
              disposition := pyOrStr none "follow_up", comment := none,
              submitted_at := some 7 }⟩],
          nextId := sampleDB.nextId + 1 }) ∧
    ((none : Option String) = none → pyOrStr none "follow_up" = "follow_up") ∧
    (∀ d : String, (none : Option String) = some d → pyOrStr none "follow_up" = d) :=
  C7_feedback_create_postcondition sampleDB (some "0") ⟨0, sampleAlice⟩
    { lead_id := "2", rating := some 5 } 2 ⟨2, { customer_id := "0", name := "Jane" }⟩ 7
    (by decide) (by decide) (by decide) (by decide) (fun d hd => nomatch hd)

theorem flipActive_id (sc : StoredCustomer) (i : Nat) (b : Bool) :
    (flipActive sc i b)._id = sc._id := by
  unfold flipActive
  split <;> rfl

theorem flipActive_email (sc : StoredCustomer) (i : Nat) (b : Bool) :
    (flipActive sc i b).doc.email = sc.doc.email := by
  unfold flipActive
  split <;> rfl

theorem flipActive_password (sc : StoredCustomer) (i : Nat) (b : Bool) :
    (flipActive sc i b).doc.password_hash = sc.doc.password_hash := by
  unfold flipActive
  split <;> rfl

theorem flipActive_name (sc : StoredCustomer) (i : Nat) (b : Bool) :
    (flipActive sc i b).doc.name = sc.doc.name := by
  unfold flipActive
  split <;> rfl

theorem get_current_customer_setActive (db : DB) (i : Nat) (b : Bool)
    (auth : Option String) :
    get_current_customer (some (setActive db i b)) auth =
      (get_current_customer (some db) auth).map (fun sc => flipActive sc i b) := by
  cases auth with
  | none => rfl
  | some a =>
    by_cases hne : a = ""
    · subst hne; rfl
    · simp only [get_current_customer, if_neg hne]
      split
      · rfl
      · rename_i oid heq
        have hfind : ((setActive db i b).customer).find? (fun sc => sc._id == oid) =
            (db.customer.find? (fun sc => sc._id == oid)).map
              (fun sc => flipActive sc i b) := by
          show (db.customer.map (fun sc => flipActive sc i b)).find? _ = _
          exact find?_map_congr _ _ (fun x => by rw [flipActive_id]) db.customer
        rw [hfind]
        cases db.customer.find? (fun sc => sc._id == oid) with
        | none => rfl
        | some sc => rfl

theorem login_setActive (db : DB) (i : Nat) (b : Bool) (payload : LoginRequest) :
    login (some (setActive db i b)) payload = login (some db) payload := by
  have hfind : ((setActive db i b).customer).find?
      (fun sc => sc.doc.email == payload.email) =
      (db.customer.find? (fun sc => sc.doc.email == payload.email)).map
        (fun sc => flipActive sc i b) := by
    show (db.customer.map (fun sc => flipActive sc i b)).find? _ = _
    exact find?_map_congr _ _ (fun x => by rw [flipActive_email]) db.customer
  simp only [login, get_customer_by_email, hfind]
  cases db.customer.find? (fun sc => sc.doc.email == payload.email) with
  | none => rfl
  | some sc =>
    simp only [Option.map]
    rw [flipActive_password, flipActive_id, flipActive_name]

theorem list_leads_setActive (db : DB) (i : Nat) (b : Bool) (auth : Option String) :
    list_leads (some (setActive db i b)) auth = list_leads (some db) auth := by
  simp only [list_leads]
  rw [get_current_customer_setActive]
  cases get_current_customer (some db) auth with
  | error e => rfl
  | ok sc =>
    simp only [Except.map, setActive, flipActive_id]

theorem create_lead_setActive (db : DB) (i : Nat) (b : Bool) (auth : Option String)
    (payload : LeadCreate) :
    create_lead (some (setActive db i b)) auth payload =
      (create_lead (some db) auth payload).map
        (fun r => (r.1, setActive r.2 i b)) := by
  simp only [create_lead]
  rw [get_current_customer_setActive]
  cases get_current_customer (some db) auth with
  | error e => rfl
  | ok sc =>
    simp only [Except.map, setActive, flipActive_id]
    split
    · rfl
    · simp [create_document_lead, setActive, Except.map]

theorem submit_feedback_setActive (db : DB) (i : Nat) (b : Bool)
    (auth : Option String) (payload : FeedbackCreate) (now : Nat) :
    submit_feedback (some (setActive db i b)) auth payload now =
      (submit_feedback (some db) auth payload now).map
        (fun r => (r.1, setActive r.2 i b)) := by
  simp only [submit_feedback]
  rw [get_current_customer_setActive]
  cases get_current_customer (some db) auth with
  | error e => rfl
  | ok sc =>
    simp only [Except.map, setActive, flipActive_id]
    split
    · rfl
    · split
      · rfl
      · split
        · rfl
        · simp [create_document_feedback, setActive, Except.map]

theorem get_feedback_for_lead_setActive (db : DB) (i : Nat) (b : Bool)
    (lead_id : String) (auth : Option String) :
    get_feedback_for_lead (some (setActive db i b)) lead_id auth =
      get_feedback_for_lead (some db) lead_id auth := by
  simp only [get_feedback_for_lead]
  rw [get_current_customer_setActive]
  cases get_current_customer (some db) auth with
  | error e => rfl
  | ok sc =>
    simp only [Except.map, setActive, flipActive_id]

/-- C10: the is_active flag is never consulted — overwriting any customer's
is_active value changes nothing observable: login responses are identical,
token resolution returns the same record (up to the overwritten flag itself),
and every authenticated lead/feedback operation returns the same result and
leaves the lead/feedback collections in the same state. -/
theorem C10_is_active_never_consulted (db : DB) (i : Nat) (b : Bool)
    (auth : Option String) (lp : LoginRequest) (cp : LeadCreate)
    (fp : FeedbackCreate) (lead_id : String) (now : Nat) :
    login (some (setActive db i b)) lp = login (some db) lp ∧
    get_current_customer (some (setActive db i b)) auth =
      (get_current_customer (some db) auth).map (fun sc => flipActive sc i b) ∧
    list_leads (some (setActive db i b)) auth = list_leads (some db) auth ∧
    create_lead (some (setActive db i b)) auth cp =
      (create_lead (some db) auth cp).map (fun r => (r.1, setActive r.2 i b)) ∧
    submit_feedback (some (setActive db i b)) auth fp now =
      (submit_feedback (some db) auth fp now).map (fun r => (r.1, setActive r.2 i b)) ∧
    get_feedback_for_lead (some (setActive db i b)) lead_id auth =
      get_feedback_for_lead (some db) lead_id auth :=
  ⟨login_setActive db i b lp,
    get_current_customer_setActive db i b auth,
    list_leads_setActive db i b auth,
    create_lead_setActive db i b auth cp,
    submit_feedback_setActive db i b auth fp now,
    get_feedback_for_lead_setActive db i b lead_id auth⟩
